import Mathlib

/-!
Verification of `src/streaming-function.py` (`get_streaming_response`).

The Python function builds a two-message conversation, requests a streamed
chat completion from an OpenAI client, folds the incoming chunks into one
string, displays the final string as Markdown, and returns it.

The embedding below mirrors the source line by line:
* `Message`, `Chunk`, `Choice`, `Delta` model the request and response shapes;
* a `Client` is a function from the outbound `Request` to the stream it
  delivers, where the stream is a list of `Except ε Chunk`: an `Except.error`
  element is the point at which iteration of the stream raises;
* `consume` is the `for chunk in response_stream` loop (lines 48-52);
* `get_streaming_response` assembles everything and returns a `CallTrace`
  recording every observable of one call: whether a default client was
  constructed, which client was used, the outbound request, the delivered
  stream, the list of display payloads, the returned value (or the
  propagated error), and whether the stream handle was released.
-/

namespace StreamingFunction

/-- One role-tagged message of the outbound conversation
(`{"role": ..., "content": ...}`, lines 33-36 of the source). -/
structure Message where
  role : String
  content : String
deriving Repr, DecidableEq

/-- The `delta` field of a streamed choice; `content` is `None` (`none`) when
the fragment carries no text delta. -/
structure Delta where
  content : Option String
deriving Repr, DecidableEq

/-- One element of a chunk's `choices` list. -/
structure Choice where
  delta : Delta
deriving Repr, DecidableEq

/-- One streamed response fragment (`chunk` in the source): a list of
choices, possibly empty. -/
structure Chunk where
  choices : List Choice
deriving Repr, DecidableEq

/-- The outbound request of line 39-43: a model identifier, the message
list, and the `stream=True` flag. -/
structure Request where
  model : String
  messages : List Message
  stream : Bool
deriving Repr, DecidableEq

/-- A client handle, seen through the only operation the source uses on it:
`client.chat.completions.create(...)` maps the outbound request to the
stream of fragments it delivers.  An `Except.error e` element models the
iterator raising `e` at that point of the stream. -/
def Client (ε : Type) : Type := Request → List (Except ε Chunk)

/-- Lines 33-36: `messages = [{"role": "system", ...}, {"role": "user", ...}]`. -/
def buildMessages (prompt system_prompt : String) : List Message :=
  [⟨"system", system_prompt⟩, ⟨"user", prompt⟩]

/-- The pinned default of the `model` keyword argument (line 8 of the source). -/
def defaultModel : String := "gpt-4o-mini"

/-- Lines 49-52, one iteration of the loop body:
`if chunk.choices:` reads `chunk.choices[0].delta.content` and appends it to
the accumulator when it is truthy (not `None` and not the empty string). -/
def stepChunk (accumulated : String) (chunk : Chunk) : String :=
  match chunk.choices with
  | [] => accumulated
  | c :: _ =>
    match c.delta.content with
    | none => accumulated
    | some content => if content = "" then accumulated else accumulated ++ content

/-- Lines 48-52, the whole loop: fold `stepChunk` over the stream, stopping
with the raised error if iteration raises. -/
def consume {ε : Type} (accumulated : String) : List (Except ε Chunk) → Except ε String
  | [] => Except.ok accumulated
  | Except.error e :: _ => Except.error e
  | Except.ok chunk :: rest => consume (stepChunk accumulated chunk) rest

/-- Whether iterating the stream reaches its end without raising.  The source
contains no `with` block, `try/finally` or `close()` call: the only way the
streaming handle is released by this function is the client library closing
it when iteration exhausts the stream (the spec's "must be fully drained"). -/
def drains {ε : Type} : List (Except ε Chunk) → Bool
  | [] => true
  | Except.error _ :: _ => false
  | Except.ok _ :: rest => drains rest

/-- Every observable of one call of `get_streaming_response`. -/
structure CallTrace (ε : Type) where
  constructedDefault : Bool
  usedClient : Client ε
  request : Request
  deliveredStream : List (Except ε Chunk)
  displays : List String
  result : Except ε String
  releasedOnExit : Bool

/-- The whole function, lines 28-57 of the source.  `mkOpenAI` stands for the
ambient `OpenAI()` constructor of line 30; it is only invoked when `client`
is `none`.  On a raised error the call returns no value (`Except.error`) and
`display` is never reached (`displays = []`); on normal exit the accumulated
string is displayed once and returned. -/
def get_streaming_response {ε : Type} (prompt system_prompt model : String)
    (client : Option (Client ε)) (mkOpenAI : Client ε) : CallTrace ε :=
  let resolved : Client ε × Bool :=
    match client with
    | none => (mkOpenAI, true)
    | some c => (c, false)
  let cl : Client ε := resolved.1
  let request : Request := ⟨model, buildMessages prompt system_prompt, true⟩
  let response_stream : List (Except ε Chunk) := cl request
  match consume "" response_stream with
  | Except.error e =>
      ⟨resolved.2, cl, request, response_stream, [],
        Except.error e, drains response_stream⟩
  | Except.ok accumulated =>
      ⟨resolved.2, cl, request, response_stream, [accumulated],
        Except.ok accumulated, drains response_stream⟩

/-- A call that omits the `model` argument: Python substitutes the pinned
default `"gpt-4o-mini"` of the signature (line 8). -/
def get_streaming_response_defaultModel {ε : Type} (prompt system_prompt : String)
    (client : Option (Client ε)) (mkOpenAI : Client ε) : CallTrace ε :=
  get_streaming_response prompt system_prompt defaultModel client mkOpenAI

/-- The text delta one chunk contributes to the accumulator: the first
choice's `delta.content` when present, the empty string otherwise. -/
def chunkDelta (chunk : Chunk) : String :=
  match chunk.choices with
  | [] => ""
  | c :: _ =>
    match c.delta.content with
    | none => ""
    | some content => content

/-- Concatenation of a list of strings in order, with no separator. -/
def concatAll : List String → String
  | [] => ""
  | d :: rest => d ++ concatAll rest

/-- Whether a chunk carries a text delta at all: it has a choice and that
choice's `delta.content` is present. -/
def carriesDelta (chunk : Chunk) : Bool :=
  match chunk.choices with
  | [] => false
  | c :: _ => c.delta.content.isSome

/-- A chunk reduced to its first choice (lines 49-50 read only `choices[0]`). -/
def truncateChoices (chunk : Chunk) : Chunk :=
  ⟨chunk.choices.take 1⟩

/-- A chunk whose single choice carries the text delta `d`. -/
def mkChunk (d : String) : Chunk :=
  ⟨[⟨⟨some d⟩⟩]⟩

/-! ## Helper lemmas about the loop body and the loop -/

/-- One loop iteration appends exactly the chunk's contributed delta. -/
theorem stepChunk_eq_append (acc : String) (chunk : Chunk) :
    stepChunk acc chunk = acc ++ chunkDelta chunk := by
  unfold stepChunk chunkDelta
  match chunk with
  | ⟨[]⟩ => simp [String.append_empty]
  | ⟨⟨⟨none⟩⟩ :: _⟩ => simp [String.append_empty]
  | ⟨⟨⟨some content⟩⟩ :: _⟩ =>
    by_cases h : content = "" <;> simp [h, String.append_empty]

/-- Consuming an error-free stream returns the accumulator followed by the
concatenation of all contributed deltas, in order. -/
theorem consume_ok {ε : Type} (chunks : List Chunk) (acc : String) :
    consume (ε := ε) acc (chunks.map Except.ok)
      = Except.ok (acc ++ concatAll (chunks.map chunkDelta)) := by
  induction chunks generalizing acc with
  | nil => simp [consume, concatAll, String.append_empty]
  | cons c rest ih =>
    simp only [List.map_cons, consume, concatAll, ih, stepChunk_eq_append,
      String.append_assoc]

/-- Consuming a stream that raises after a prefix of good chunks propagates
exactly the raised error. -/
theorem consume_error {ε : Type} (oks : List Chunk) (e : ε)
    (rest : List (Except ε Chunk)) (acc : String) :
    consume acc (oks.map Except.ok ++ Except.error e :: rest) = Except.error e := by
  induction oks generalizing acc with
  | nil => simp [consume]
  | cons c t ih => simp [consume, ih]

/-- A stream drains completely exactly when the loop finishes without error. -/
theorem drains_eq_isOk {ε : Type} (s : List (Except ε Chunk)) (acc : String) :
    drains s = (consume acc s).isOk := by
  induction s generalizing acc with
  | nil => simp [drains, consume, Except.isOk, Except.toBool]
  | cons hd tl ih =>
    match hd with
    | Except.error e => simp [drains, consume, Except.isOk, Except.toBool]
    | Except.ok c => simpa [drains, consume] using ih (stepChunk acc c)

/-- Chunks that carry no delta contribute the empty string. -/
theorem chunkDelta_of_not_carriesDelta (chunk : Chunk)
    (h : carriesDelta chunk = false) : chunkDelta chunk = "" := by
  unfold carriesDelta at h
  unfold chunkDelta
  match chunk with
  | ⟨[]⟩ => rfl
  | ⟨⟨⟨none⟩⟩ :: _⟩ => rfl
  | ⟨⟨⟨some content⟩⟩ :: _⟩ => simp [Option.isSome] at h

/-- Removing the chunks that carry no delta does not change the concatenation
of contributed deltas. -/
theorem concatAll_filter_carriesDelta (chunks : List Chunk) :
    concatAll ((chunks.filter carriesDelta).map chunkDelta)
      = concatAll (chunks.map chunkDelta) := by
  induction chunks with
  | nil => rfl
  | cons c rest ih =>
    by_cases h : carriesDelta c
    · simp [List.filter_cons, h, concatAll, ih]
    · simp only [Bool.not_eq_true] at h
      simp [List.filter_cons, h, concatAll, ih,
        chunkDelta_of_not_carriesDelta c h, String.empty_append]

/-- Dropping every choice after the first does not change a chunk's
contributed delta. -/
theorem chunkDelta_truncateChoices (chunk : Chunk) :
    chunkDelta (truncateChoices chunk) = chunkDelta chunk := by
  unfold chunkDelta truncateChoices
  match chunk with
  | ⟨[]⟩ => rfl
  | ⟨c :: _⟩ => rfl

/-- The loop's outcome depends on the stream only through the contributed
delta of each good chunk and the identity of the raised error. -/
theorem consume_congr {ε : Type} (s₁ s₂ : List (Except ε Chunk)) (acc : String)
    (h : s₁.map (Except.map chunkDelta) = s₂.map (Except.map chunkDelta)) :
    consume acc s₁ = consume acc s₂ := by
  induction s₁ generalizing s₂ acc with
  | nil =>
    match s₂ with
    | [] => rfl
    | _ :: _ => simp at h
  | cons hd tl ih =>
    match s₂ with
    | [] => simp at h
    | hd₂ :: tl₂ =>
      simp only [List.map_cons, List.cons.injEq] at h
      obtain ⟨h₁, h₂⟩ := h
      match hd, hd₂ with
      | Except.error e, Except.error e₂ =>
        simp only [Except.map] at h₁
        injection h₁ with he
        simp [consume, he]
      | Except.error e, Except.ok c₂ => simp [Except.map] at h₁
      | Except.ok c, Except.error e₂ => simp [Except.map] at h₁
      | Except.ok c, Except.ok c₂ =>
        simp only [Except.map] at h₁
        injection h₁ with hc
        simp only [consume, stepChunk_eq_append, hc]
        exact ih tl₂ _ h₂

/-- Concatenating a list of empty strings gives the empty string. -/
theorem concatAll_of_all_empty (ds : List String) (h : ∀ d ∈ ds, d = "") :
    concatAll ds = "" := by
  induction ds with
  | nil => rfl
  | cons d rest ih =>
    have hd : d = "" := h d (List.mem_cons_self d rest)
    have hrest : ∀ x ∈ rest, x = "" := fun x hx => h x (List.mem_cons_of_mem d hx)
    simp [concatAll, hd, ih hrest, String.empty_append]

/-- Truncating every chunk to its first choice leaves the delta list unchanged. -/
theorem map_chunkDelta_truncate (chunks : List Chunk) :
    (chunks.map truncateChoices).map chunkDelta = chunks.map chunkDelta := by
  induction chunks with
  | nil => rfl
  | cons c rest ih => simp [chunkDelta_truncateChoices, ih]

/-- The recorded result of a call is the outcome of the loop over the
recorded delivered stream. -/
theorem result_eq_consume {ε : Type} (prompt system_prompt model : String)
    (client : Option (Client ε)) (mkOpenAI : Client ε) :
    (get_streaming_response prompt system_prompt model client mkOpenAI).result
      = consume ""
          (get_streaming_response prompt system_prompt model client mkOpenAI).deliveredStream := by
  simp only [get_streaming_response]
  split <;> rename_i h <;> simp [h]

/-- The recorded display payloads of a call are determined by its result:
one payload, the returned string, on normal exit; none on error exit. -/
theorem displays_eq_of_result {ε : Type} (prompt system_prompt model : String)
    (client : Option (Client ε)) (mkOpenAI : Client ε) :
    (get_streaming_response prompt system_prompt model client mkOpenAI).displays
      = (match (get_streaming_response prompt system_prompt model client mkOpenAI).result with
          | Except.ok a => [a]
          | Except.error _ => []) := by
  simp only [get_streaming_response]
  split <;> rfl

/-! ## Claim theorems -/

/-- C1: for every finite sequence of fragments, delivered error-free, the call
returns exactly the concatenation of the fragments' text deltas in arrival
order, with no reordering, deduplication, or separator insertion, and the
display collaborator receives exactly that string once. -/
theorem C1_order_preservation {ε : Type} (prompt system_prompt model : String)
    (mkOpenAI : Client ε) (chunks : List Chunk) :
    (get_streaming_response prompt system_prompt model
        (some (fun _ => chunks.map Except.ok)) mkOpenAI).result
      = Except.ok (concatAll (chunks.map chunkDelta)) ∧
    (get_streaming_response prompt system_prompt model
        (some (fun _ => chunks.map Except.ok)) mkOpenAI).displays
      = [concatAll (chunks.map chunkDelta)] := by
  constructor <;> simp [get_streaming_response, consume_ok, String.empty_append]

/-- C2: the outbound request always contains exactly two messages, the first
with role system and content `system_prompt`, the second with role user and
content `prompt`, for every input including empty strings. -/
theorem C2_message_shape {ε : Type} (prompt system_prompt model : String)
    (client : Option (Client ε)) (mkOpenAI : Client ε) :
    (get_streaming_response prompt system_prompt model client mkOpenAI).request.messages
      = [⟨"system", system_prompt⟩, ⟨"user", prompt⟩] := by
  simp only [get_streaming_response, buildMessages]
  split <;> rfl

/-- C3: if the stream raises after zero or more fragments, the call returns
no value but the raised error itself, unchanged, and the display collaborator
is never invoked, discarding the partial accumulation. -/
theorem C3_failure_propagation {ε : Type} (prompt system_prompt model : String)
    (mkOpenAI : Client ε) (oks : List Chunk) (e : ε) (rest : List (Except ε Chunk)) :
    (get_streaming_response prompt system_prompt model
        (some (fun _ => oks.map Except.ok ++ Except.error e :: rest)) mkOpenAI).result
      = Except.error e ∧
    (get_streaming_response prompt system_prompt model
        (some (fun _ => oks.map Except.ok ++ Except.error e :: rest)) mkOpenAI).displays
      = [] := by
  constructor <;> simp [get_streaming_response, consume_error]

/-- C4: fragments carrying no text delta (no choices, or an absent
`delta.content`) contribute nothing and raise no error: the call on the full
sequence returns the same value, and displays the same payloads, as the call
on the sequence with the no-delta fragments filtered out, and both succeed. -/
theorem C4_empty_fragment_tolerance {ε : Type} (prompt system_prompt model : String)
    (mkOpenAI : Client ε) (chunks : List Chunk) :
    (get_streaming_response prompt system_prompt model
        (some (fun _ => chunks.map Except.ok)) mkOpenAI).result
      = (get_streaming_response prompt system_prompt model
          (some (fun _ => (chunks.filter carriesDelta).map Except.ok)) mkOpenAI).result ∧
    (get_streaming_response prompt system_prompt model
        (some (fun _ => chunks.map Except.ok)) mkOpenAI).displays
      = (get_streaming_response prompt system_prompt model
          (some (fun _ => (chunks.filter carriesDelta).map Except.ok)) mkOpenAI).displays ∧
    Except.isOk (get_streaming_response prompt system_prompt model
        (some (fun _ => chunks.map Except.ok)) mkOpenAI).result = true := by
  refine ⟨?_, ?_, ?_⟩ <;>
    simp [get_streaming_response, consume_ok, concatAll_filter_carriesDelta,
      Except.isOk, Except.toBool]

/-- C5: if the fragment sequence yields no text deltas at all, the call
returns the empty string and the display collaborator is invoked exactly once
with the empty string. -/
theorem C5_empty_overall_response {ε : Type} (prompt system_prompt model : String)
    (mkOpenAI : Client ε) (chunks : List Chunk)
    (h : ∀ c ∈ chunks, chunkDelta c = "") :
    (get_streaming_response prompt system_prompt model
        (some (fun _ => chunks.map Except.ok)) mkOpenAI).result = Except.ok "" ∧
    (get_streaming_response prompt system_prompt model
        (some (fun _ => chunks.map Except.ok)) mkOpenAI).displays = [""] := by
  have hall : ∀ d ∈ chunks.map chunkDelta, d = "" := by
    intro d hd
    obtain ⟨c, hc, rfl⟩ := List.mem_map.mp hd
    exact h c hc
  constructor <;>
    simp [get_streaming_response, consume_ok, concatAll_of_all_empty _ hall,
      String.empty_append]

/-- C5 witness: a concrete two-fragment sequence (one with no choices, one
with an absent delta) returns the empty string and displays it once. -/
theorem C5_empty_overall_response_witness :
    (∀ c ∈ [Chunk.mk [], Chunk.mk [⟨⟨none⟩⟩]], chunkDelta c = "") ∧
    ((get_streaming_response "p" "sys" "m"
        (some (fun _ => ([Chunk.mk [], Chunk.mk [⟨⟨none⟩⟩]] : List Chunk).map Except.ok))
        (fun _ => ([] : List (Except Nat Chunk)))).result = Except.ok "" ∧
      (get_streaming_response "p" "sys" "m"
        (some (fun _ => ([Chunk.mk [], Chunk.mk [⟨⟨none⟩⟩]] : List Chunk).map Except.ok))
        (fun _ => ([] : List (Except Nat Chunk)))).displays = [""]) :=
  ⟨by decide, C5_empty_overall_response "p" "sys" "m" _ _ (by decide)⟩

/-- C6 counterexample: the source has no `with` block, `try/finally` or
`close()`; the only release it effects is the client library closing the
handle when iteration exhausts the stream.  On this concrete call the stream
raises immediately, the error exit is taken, and the handle is not released
by the function, refuting release on every exit path. -/
theorem C6_release_counterexample :
    (get_streaming_response "p" "sys" "m"
        (some (fun _ => [Except.error (0 : Nat)]))
        (fun _ => ([] : List (Except Nat Chunk)))).releasedOnExit = false := by
  rfl

/-- C6 amended: the streaming handle is released exactly on the normal exit
path, where the stream is fully drained; when an error propagates mid-stream
the function performs no release of its own (it has no scoped-acquisition
construct), so the handle is not released on the error exit path. -/
theorem C6_release_iff_normal_exit {ε : Type} (prompt system_prompt model : String)
    (client : Option (Client ε)) (mkOpenAI : Client ε) :
    (get_streaming_response prompt system_prompt model client mkOpenAI).releasedOnExit
      = Except.isOk
          (get_streaming_response prompt system_prompt model client mkOpenAI).result := by
  simp only [get_streaming_response]
  split <;> rename_i h <;>
    simp [drains_eq_isOk _ "", h, Except.isOk, Except.toBool]

/-- C7: a call that omits the `model` argument sends the pinned constant
default identifier `"gpt-4o-mini"` in the outbound request, on every call. -/
theorem C7_default_model {ε : Type} (prompt system_prompt : String)
    (client : Option (Client ε)) (mkOpenAI : Client ε) :
    (get_streaming_response_defaultModel prompt system_prompt client mkOpenAI).request.model
      = "gpt-4o-mini" := by
  simp only [get_streaming_response_defaultModel, get_streaming_response, defaultModel]
  split <;> rfl

/-- C8: when a pre-built client is supplied, no default client is
constructed, the supplied client is the one used, and the stream consumed is
the one that client delivers for the outbound request; a default client is
constructed exactly when the client argument is omitted. -/
theorem C8_client_injection {ε : Type} (prompt system_prompt model : String)
    (c : Client ε) (mkOpenAI : Client ε) :
    (get_streaming_response prompt system_prompt model (some c) mkOpenAI).constructedDefault
      = false ∧
    (get_streaming_response prompt system_prompt model (some c) mkOpenAI).usedClient = c ∧
    (get_streaming_response prompt system_prompt model (some c) mkOpenAI).deliveredStream
      = c (get_streaming_response prompt system_prompt model (some c) mkOpenAI).request ∧
    (get_streaming_response prompt system_prompt model none mkOpenAI).constructedDefault
      = true := by
  refine ⟨?_, ?_, ?_, ?_⟩ <;> simp only [get_streaming_response] <;> split <;> rfl

/-- C9: only the first choice of each fragment is read: truncating every
fragment to its first choice changes neither the returned value nor the
display payloads, so deltas of additional choices never appear. -/
theorem C9_first_choice_only {ε : Type} (prompt system_prompt model : String)
    (mkOpenAI : Client ε) (chunks : List Chunk) :
    (get_streaming_response prompt system_prompt model
        (some (fun _ => chunks.map Except.ok)) mkOpenAI).result
      = (get_streaming_response prompt system_prompt model
          (some (fun _ => (chunks.map truncateChoices).map Except.ok)) mkOpenAI).result ∧
    (get_streaming_response prompt system_prompt model
        (some (fun _ => chunks.map Except.ok)) mkOpenAI).displays
      = (get_streaming_response prompt system_prompt model
          (some (fun _ => (chunks.map truncateChoices).map Except.ok)) mkOpenAI).displays := by
  have h1 : consume (ε := ε) "" (chunks.map Except.ok)
      = Except.ok (concatAll (chunks.map chunkDelta)) := by
    rw [consume_ok, String.empty_append]
  have h2 : consume (ε := ε) "" ((chunks.map truncateChoices).map Except.ok)
      = Except.ok (concatAll (chunks.map chunkDelta)) := by
    rw [consume_ok, map_chunkDelta_truncate, String.empty_append]
  constructor <;> (simp only [get_streaming_response]; rw [h1, h2])

/-- C10: the call is deterministic and its outcome depends only on the
delivered stream of text deltas (and the identity of a raised error), not on
prompt, system prompt, model, or client: two calls whose delivered streams
project to the same delta sequence return the same value and display the
same payloads. -/
theorem C10_delta_determinism {ε : Type}
    (p₁ s₁ m₁ : String) (c₁ : Option (Client ε)) (k₁ : Client ε)
    (p₂ s₂ m₂ : String) (c₂ : Option (Client ε)) (k₂ : Client ε)
    (h : (get_streaming_response p₁ s₁ m₁ c₁ k₁).deliveredStream.map (Except.map chunkDelta)
        = (get_streaming_response p₂ s₂ m₂ c₂ k₂).deliveredStream.map (Except.map chunkDelta)) :
    (get_streaming_response p₁ s₁ m₁ c₁ k₁).result
      = (get_streaming_response p₂ s₂ m₂ c₂ k₂).result ∧
    (get_streaming_response p₁ s₁ m₁ c₁ k₁).displays
      = (get_streaming_response p₂ s₂ m₂ c₂ k₂).displays := by
  have hres : (get_streaming_response p₁ s₁ m₁ c₁ k₁).result
      = (get_streaming_response p₂ s₂ m₂ c₂ k₂).result := by
    rw [result_eq_consume, result_eq_consume]
    exact consume_congr _ _ "" h
  refine ⟨hres, ?_⟩
  rw [displays_eq_of_result, displays_eq_of_result, hres]

/-- C10 witness: two calls with different prompts, models and clients whose
streams carry the same delta sequence (the second through a fragment with an
extra, ignored choice) agree on result and display payloads. -/
theorem C10_delta_determinism_witness :
    ((get_streaming_response "p1" "s1" "m1"
        (some (fun _ => [Except.ok (mkChunk "a")]))
        (fun _ => ([] : List (Except Nat Chunk)))).deliveredStream.map (Except.map chunkDelta)
      = (get_streaming_response "p2" "s2" "m2"
          (some (fun _ => [Except.ok (Chunk.mk [⟨⟨some "a"⟩⟩, ⟨⟨some "zzz"⟩⟩])]))
          (fun _ => ([] : List (Except Nat Chunk)))).deliveredStream.map
            (Except.map chunkDelta)) ∧
    ((get_streaming_response "p1" "s1" "m1"
        (some (fun _ => [Except.ok (mkChunk "a")]))
        (fun _ => ([] : List (Except Nat Chunk)))).result
      = (get_streaming_response "p2" "s2" "m2"
          (some (fun _ => [Except.ok (Chunk.mk [⟨⟨some "a"⟩⟩, ⟨⟨some "zzz"⟩⟩])]))
          (fun _ => ([] : List (Except Nat Chunk)))).result ∧
      (get_streaming_response "p1" "s1" "m1"
        (some (fun _ => [Except.ok (mkChunk "a")]))
        (fun _ => ([] : List (Except Nat Chunk)))).displays
      = (get_streaming_response "p2" "s2" "m2"
          (some (fun _ => [Except.ok (Chunk.mk [⟨⟨some "a"⟩⟩, ⟨⟨some "zzz"⟩⟩])]))
          (fun _ => ([] : List (Except Nat Chunk)))).displays) :=
  ⟨by rfl, C10_delta_determinism "p1" "s1" "m1" _ _ "p2" "s2" "m2" _ _ (by rfl)⟩

end StreamingFunction
